import Mathlib

/-!
Shallow embedding of the Excel-dashboard data pipeline of `src/app.py`:
the loader (sheet lookup, strict `%d/%m/%y` date parsing, left merge on
`codigo` = `CODIGO`, try/except boundary returning a triple of `None`),
the derived `mes`/`año` columns, the six chart-mode aggregations, the CSV
export, the argument-keyed load cache and the sidebar source-resolution
order.  Tables are modelled as pandas-style sheets: a header of column
names plus rows of cells, where a blank cell models a missing value
(NaN/NaT).  Machine floats are modelled by exact rationals.
-/

set_option autoImplicit false

namespace ExcelApp

/-- Calendar date produced by strict parsing with format `%d/%m/%y`. -/
structure Date where
  year : Nat
  month : Nat
  day : Nat
deriving DecidableEq, Repr

/-- Value of one spreadsheet cell; `blank` models a missing value (NaN/NaT). -/
inductive Cell where
  | str (s : String)
  | num (q : ℚ)
  | date (d : Date)
  | blank
deriving DecidableEq, Repr

/-- A pandas-style dataframe: column names plus rows of cells. -/
structure Sheet where
  header : List String
  rows : List (List Cell)
deriving DecidableEq, Repr

/-- An Excel workbook: named worksheets, as read by `pd.read_excel`. -/
abbrev ExcelFile := List (String × Sheet)

/-- Result triple of `load_excel`: the Entradas, Familias and merged tables
(`None` on failure). -/
abbrev LoadResult := Option Sheet × Option Sheet × Option Sheet

/-! ### Strict date parsing, modelling `pd.to_datetime(..., format='%d/%m/%y')` -/

/-- Numeric value of a decimal digit character. -/
def digitVal (c : Char) : Nat := c.toNat - 48

/-- Split a character list on the literal separator `/` of the format. -/
def splitSlash : List Char → List (List Char)
  | [] => [[]]
  | c :: cs =>
    if c = '/' then [] :: splitSlash cs
    else
      match splitSlash cs with
      | [] => [[c]]
      | g :: gs => (c :: g) :: gs

/-- Two-digit-year pivot used by `strptime` `%y`: 00-68 ↦ 2000s, 69-99 ↦ 1900s. -/
def expandY2 (y : Nat) : Nat :=
  if y ≤ 68 then 2000 + y else 1900 + y

/-- Gregorian leap-year rule, as used by `datetime` for day validation. -/
def isLeapYear (y : Nat) : Bool :=
  (y % 4 = 0 && y % 100 ≠ 0) || y % 400 = 0

/-- Number of days of month `m` in year `y`. -/
def daysInMonth (y m : Nat) : Nat :=
  if m = 2 then (if isLeapYear y then 29 else 28)
  else if m = 4 ∨ m = 6 ∨ m = 9 ∨ m = 11 then 30
  else 31

/-- The `strptime` `%d` field, per CPython's TimeRE pattern
`3[0-1]|[1-2]\d|0[1-9]|[1-9]| [1-9]`: a one- or two-digit day 1-31, where a
single nonzero digit may also be space-padded. -/
def parseDay : List Char → Option Nat
  | [c] => if '1' ≤ c ∧ c ≤ '9' then some (digitVal c) else none
  | [' ', c] => if '1' ≤ c ∧ c ≤ '9' then some (digitVal c) else none
  | [c1, c2] =>
    if c1 = '3' ∧ ('0' ≤ c2 ∧ c2 ≤ '1') then some (30 + digitVal c2)
    else if ('1' ≤ c1 ∧ c1 ≤ '2') ∧ ('0' ≤ c2 ∧ c2 ≤ '9') then
      some (10 * digitVal c1 + digitVal c2)
    else if c1 = '0' ∧ ('1' ≤ c2 ∧ c2 ≤ '9') then some (digitVal c2)
    else none
  | _ => none

/-- The `strptime` `%m` field, per CPython's TimeRE pattern
`1[0-2]|0[1-9]|[1-9]`: a one- or two-digit month 1-12, no space padding. -/
def parseMonth : List Char → Option Nat
  | [c] => if '1' ≤ c ∧ c ≤ '9' then some (digitVal c) else none
  | [c1, c2] =>
    if c1 = '1' ∧ ('0' ≤ c2 ∧ c2 ≤ '2') then some (10 + digitVal c2)
    else if c1 = '0' ∧ ('1' ≤ c2 ∧ c2 ≤ '9') then some (digitVal c2)
    else none
  | _ => none

/-- The `strptime` `%y` field, per CPython's TimeRE pattern `\d\d`: exactly
two digits, expanded with the 69 pivot. -/
def parseYear2 : List Char → Option Nat
  | [c1, c2] =>
    if c1.isDigit ∧ c2.isDigit then some (expandY2 (10 * digitVal c1 + digitVal c2))
    else none
  | _ => none

/-- Strict parse of a date string with format `%d/%m/%y`: exactly three
slash-separated fields matching the `strptime` field patterns `%d`, `%m`
and `%y`, validated as a calendar date by `datetime`.  Any other shape
(for example an ISO date `2024-03-05`, or a one-digit year) yields `none`;
no fallback format is attempted. -/
def parseDDMMYY (s : String) : Option Date :=
  match splitSlash s.toList with
  | [ds, ms, ys] =>
    match parseDay ds, parseMonth ms, parseYear2 ys with
    | some d, some m, some y =>
      if d ≤ daysInMonth y m then some ⟨y, m, d⟩ else none
    | _, _, _ => none
  | _ => none

/-! ### Formatting of derived columns and of the CSV export -/

/-- Zero-padded two-digit rendering, as in `strftime` `%m`/`%d`. -/
def pad2 (n : Nat) : String :=
  if n < 10 then "0" ++ toString n else toString n

/-- Rendering of `strftime('%Y-%m')`, the derived `mes` key. -/
def fmtYM (d : Date) : String :=
  toString d.year ++ "-" ++ pad2 d.month

/-- Rendering of a calendar date as `YYYY-MM-DD` (CSV export of a datetime). -/
def fmtYMD (d : Date) : String :=
  fmtYM d ++ "-" ++ pad2 d.day

/-! ### Column access -/

/-- Index of the first column with the given name, `none` when absent
(a lookup that pandas answers with a `KeyError`). -/
def colIdx? : List String → String → Option Nat
  | [], _ => none
  | h :: t, c => if h = c then some 0 else (colIdx? t c).map (· + 1)

/-- Cell of a row at a column index; out-of-range reads give a blank cell
(rows of a parsed dataframe are rectangular, so this default is unused
on pipeline-produced sheets). -/
def getCellAt : List Cell → Nat → Cell
  | [], _ => Cell.blank
  | c :: _, 0 => c
  | _ :: t, n + 1 => getCellAt t n

/-! ### The loader, modelling `load_excel` -/

/-- Worksheet lookup of `pd.read_excel(file, sheet_name=...)`; a missing
sheet raises, modelled as an `Except.error`. -/
def findSheet : ExcelFile → String → Except String Sheet
  | [], n => .error ("Worksheet named " ++ n ++ " not found")
  | (m, s) :: rest, n => if m = n then .ok s else findSheet rest n

/-- Conversion of one cell by `pd.to_datetime(..., format='%d/%m/%y')`:
a string must match the fixed format exactly, an existing datetime passes
through, a missing value stays missing (NaT), anything else raises. -/
def parseCellDate : Cell → Except String Cell
  | Cell.str t =>
    match parseDDMMYY t with
    | some d => .ok (Cell.date d)
    | none => .error ("time data " ++ t ++ " does not match format %d/%m/%y")
  | Cell.date d => .ok (Cell.date d)
  | Cell.blank => .ok Cell.blank
  | Cell.num _ => .error "invalid date value"

/-- `mapM` over `Except`, written out so that its equations are directly
available: the first failing element fails the whole traversal. -/
def exMapM {α β : Type} (g : α → Except String β) : List α → Except String (List β)
  | [] => .ok []
  | a :: l =>
    match g a with
    | .error e => .error e
    | .ok b =>
      match exMapM g l with
      | .error e => .error e
      | .ok bs => .ok (b :: bs)

/-- In-place conversion of one date column
(`entradas_df[col] = pd.to_datetime(entradas_df[col], format='%d/%m/%y')`):
the column must exist and every cell must convert, else the statement raises. -/
def convertDateCol (s : Sheet) (c : String) : Except String Sheet :=
  match colIdx? s.header c with
  | none => .error ("KeyError: " ++ c)
  | some i =>
    match exMapM (fun row => (parseCellDate (getCellAt row i)).map (fun cl => row.set i cl)) s.rows with
    | .error e => .error e
    | .ok rows2 => .ok ⟨s.header, rows2⟩

/-- Family rows whose `CODIGO` cell (at index `j`) equals the entry key `c`.
pandas merge matches missing keys to missing keys, so plain cell equality
is used. -/
def matchesFor (fRows : List (List Cell)) (j : Nat) (c : Cell) : List (List Cell) :=
  fRows.filter (fun fr => decide (getCellAt fr j = c))

/-- Joined rows produced by one entry row in a left outer merge: one row per
matching family row, or a single row padded with blank family columns when
no family row matches. -/
def joinRows (fhdr : List String) (fRows : List (List Cell)) (j i : Nat) (er : List Cell) : List (List Cell) :=
  match matchesFor fRows j (getCellAt er i) with
  | [] => [er ++ fhdr.map (fun _ => Cell.blank)]
  | ms => ms.map (fun fr => er ++ fr)

/-- Concatenated image of a list-valued map (`List.flatMap`, inlined so its
equations are directly available). -/
def concatMap {α β : Type} (g : α → List β) : List α → List β
  | [] => []
  | a :: l => g a ++ concatMap g l

/-- The merge of line 37:
`pd.merge(entradas_df, familias_df, left_on='codigo', right_on='CODIGO', how='left')`.
Both key columns must exist, every entry row is kept (blank-padded when
unmatched) and duplicated `CODIGO` keys fan out, one joined row per match. -/
def mergeLeftOn (e f : Sheet) : Except String Sheet :=
  match colIdx? e.header "codigo", colIdx? f.header "CODIGO" with
  | some i, some j => .ok ⟨e.header ++ f.header, concatMap (joinRows f.header f.rows j i) e.rows⟩
  | none, _ => .error "KeyError: codigo"
  | _, none => .error "KeyError: CODIGO"

/-- Body of `load_excel` before the try/except boundary: read both sheets,
convert the two date columns (the loop of lines 32-34, unrolled), merge. -/
def loadExcelE (f : ExcelFile) : Except String (Sheet × Sheet × Sheet) :=
  match findSheet f "Entradas" with
  | .error e => .error e
  | .ok entradas0 =>
    match findSheet f "Familias" with
    | .error e => .error e
    | .ok familias =>
      match convertDateCol entradas0 "fecha_entrada_caja" with
      | .error e => .error e
      | .ok entradas1 =>
        match convertDateCol entradas1 "fecha_preparación_caja" with
        | .error e => .error e
        | .ok entradas =>
          match mergeLeftOn entradas familias with
          | .error e => .error e
          | .ok merged => .ok (entradas, familias, merged)

/-- `load_excel` as seen by its callers: the try/except boundary converts any
failure into the uniform no-data triple `(None, None, None)`. -/
def load_excel (f : ExcelFile) : LoadResult :=
  match loadExcelE f with
  | .ok (a, b, c) => (some a, some b, some c)
  | .error _ => (none, none, none)

/-- User-facing message emitted by the `except` branch of `load_excel`
(`st.error(f"Error al cargar el archivo Excel: {str(e)}")`), `none` on success. -/
def load_excel_msg (f : ExcelFile) : Option String :=
  match loadExcelE f with
  | .ok _ => none
  | .error e => some ("Error al cargar el archivo Excel: " ++ e)

/-! ### Derived columns (lines 112-113) -/

/-- Cell of the derived `mes` column: `strftime('%Y-%m')` of a datetime,
missing for a missing date. -/
def monthCell : Cell → Cell
  | Cell.date d => Cell.str (fmtYM d)
  | _ => Cell.blank

/-- Cell of the derived `año` column: the year of a datetime. -/
def yearCell : Cell → Cell
  | Cell.date d => Cell.num d.year
  | _ => Cell.blank

/-- Lines 112-113: append the derived `mes` and `año` columns computed from
`fecha_entrada_caja`.  After a successful load that column always exists;
the degenerate branch returns the sheet unchanged. -/
def addDerivedCols (s : Sheet) : Sheet :=
  match colIdx? s.header "fecha_entrada_caja" with
  | some i =>
    ⟨s.header ++ ["mes", "año"],
     s.rows.map (fun r => r ++ [monthCell (getCellAt r i), yearCell (getCellAt r i)])⟩
  | none => s

/-! ### Aggregations (the six chart modes) -/

/-- Number of occurrences of `x` in `l` (pandas `groupby(...).size()` counts). -/
def cnt {α : Type} [DecidableEq α] (x : α) (l : List α) : Nat :=
  (l.filter (fun y => decide (y = x))).length

/-- Key pairs of `df.groupby([c1, c2])`: one pair per row whose two key cells
are both present — pandas drops rows with a missing group key.  A missing
key column raises a `KeyError`. -/
def groupPairs (s : Sheet) (c1 c2 : String) : Except String (List (Cell × Cell)) :=
  match colIdx? s.header c1, colIdx? s.header c2 with
  | some i, some j =>
    .ok (s.rows.filterMap (fun r =>
      if getCellAt r i = Cell.blank ∨ getCellAt r j = Cell.blank then none
      else some (getCellAt r i, getCellAt r j)))
  | none, _ => .error ("KeyError: " ++ c1)
  | _, none => .error ("KeyError: " ++ c2)

/-- `groupby([k, q]).size().unstack(fill_value=0)`: one row per distinct first
key, one column per distinct second key, entries are pair counts (groupby
orders the keys; their order is irrelevant to every property stated below,
so first-appearance order is used). -/
def pivotTable (pairs : List (Cell × Cell)) : List (Cell × List Nat) :=
  ((pairs.map Prod.fst).dedup).map (fun k =>
    (k, ((pairs.map Prod.snd).dedup).map (fun c => cnt (k, c) pairs)))

/-- `t.div(t.sum(axis=1), axis=0)`: divide every entry of a row by the sum of
that row. -/
def divRowSum (t : List (Cell × List Nat)) : List (Cell × List ℚ) :=
  t.map (fun kr => (kr.1, kr.2.map (fun n : Nat => (n : ℚ) / ((kr.2.sum : Nat) : ℚ))))

/-- Lines 130-131: proportions of `CALIDAD` values within each month. -/
def quality_by_month (s : Sheet) : Except String (List (Cell × List ℚ)) :=
  (groupPairs s "mes" "CALIDAD").map (fun p => divRowSum (pivotTable p))

/-- Lines 140-141: proportions of `CALIDAD` values within each origin. -/
def quality_by_origin (s : Sheet) : Except String (List (Cell × List ℚ)) :=
  (groupPairs s "ORIGEN" "CALIDAD").map (fun p => divRowSum (pivotTable p))

/-- Lines 198-199: proportions of `CALIDAD` values within each family. -/
def quality_by_family (s : Sheet) : Except String (List (Cell × List ℚ)) :=
  (groupPairs s "FAMILIA" "CALIDAD").map (fun p => divRowSum (pivotTable p))

/-- Numeric values of a list of cells; missing and non-numeric cells are
skipped, as pandas aggregations skip NaN. -/
def numCells (cells : List Cell) : List ℚ :=
  cells.filterMap (fun c =>
    match c with
    | Cell.num q => some q
    | _ => none)

/-- Numeric `valor` values (column index `j`) of the rows of group `k` of the
key column at index `i`. -/
def valsOf (s : Sheet) (i j : Nat) (k : Cell) : List ℚ :=
  numCells ((s.rows.filter (fun r => decide (getCellAt r i = k))).map (fun r => getCellAt r j))

/-- Line 156: `merged_df.groupby('mes')['valor'].agg(['mean', 'sum'])` — one
output triple `(month, mean, sum)` per distinct month, the dual series of
the Valor-por-Mes chart. -/
def value_by_month (s : Sheet) : Except String (List (Cell × ℚ × ℚ)) :=
  match colIdx? s.header "mes", colIdx? s.header "valor" with
  | some i, some j =>
    .ok (((s.rows.filterMap (fun r =>
      if getCellAt r i = Cell.blank then none else some (getCellAt r i))).dedup).map
        (fun k => (k, (valsOf s i j k).sum / ((valsOf s i j k).length : ℚ), (valsOf s i j k).sum)))
  | none, _ => .error "KeyError: mes"
  | _, none => .error "KeyError: valor"

/-- Line 207: `groupby(['ORIGEN', 'CALIDAD'])['valor'].mean()` as a flat list
of `((origin, quality), mean)` entries. -/
def avg_value (s : Sheet) : Except String (List ((Cell × Cell) × ℚ)) :=
  match colIdx? s.header "ORIGEN", colIdx? s.header "CALIDAD", colIdx? s.header "valor" with
  | some i, some j, some v =>
    .ok (((s.rows.filterMap (fun r =>
      if getCellAt r i = Cell.blank ∨ getCellAt r j = Cell.blank then none
      else some (getCellAt r i, getCellAt r j))).dedup).map
        (fun kc =>
          let vals := numCells ((s.rows.filter (fun r =>
            decide (getCellAt r i = kc.1 ∧ getCellAt r j = kc.2))).map (fun r => getCellAt r v))
          (kc, vals.sum / (vals.length : ℚ))))
  | none, _, _ => .error "KeyError: ORIGEN"
  | _, none, _ => .error "KeyError: CALIDAD"
  | _, _, none => .error "KeyError: valor"

/-- Line 149: the `(CALIDAD, valor)` points handed to `px.box`. -/
def box_data (s : Sheet) : Except String (List (Cell × Cell)) :=
  match colIdx? s.header "CALIDAD", colIdx? s.header "valor" with
  | some i, some j => .ok (s.rows.map (fun r => (getCellAt r i, getCellAt r j)))
  | none, _ => .error "KeyError: CALIDAD"
  | _, none => .error "KeyError: valor"

/-- Structured chart data handed to the plotting library. -/
inductive ChartData where
  | bar (t : List (Cell × List ℚ))
  | box (pts : List (Cell × Cell))
  | dual (t : List (Cell × ℚ × ℚ))
  | groupedBar (t : List ((Cell × Cell) × ℚ))

/-- The `plot_type` dispatch of lines 128-211: each branch computes its
aggregation; an aggregation failure is a raised exception (`Except.error`).
The final branch is unreachable: the selectbox only offers the six labels. -/
def renderChart (s : Sheet) (plotType : String) : Except String ChartData :=
  if plotType = "Distribución de Calidad por Mes" then (quality_by_month s).map ChartData.bar
  else if plotType = "Distribución de Calidad por Origen" then (quality_by_origin s).map ChartData.bar
  else if plotType = "Distribución de Valores por Calidad" then (box_data s).map ChartData.box
  else if plotType = "Valor por Mes" then (value_by_month s).map ChartData.dual
  else if plotType = "Distribución de Calidad por Familia" then (quality_by_family s).map ChartData.bar
  else if plotType = "Valor Promedio por Origen y Calidad" then (avg_value s).map ChartData.groupedBar
  else .ok (ChartData.bar [])

/-- Observable outcome of the chart section of the script: a rendered chart,
an `st.error` message produced by the script, or an exception escaping the
script to the surrounding framework. -/
inductive RenderOutcome where
  | rendered (c : ChartData)
  | errorMessage (msg : String)
  | uncaught (exn : String)

/-- The chart section as written: no try/except surrounds the dispatch of
lines 128-211 and no `st.error` call exists there, so a raised exception
escapes the script uncaught (contrast with the boundary of `load_excel`,
which produces `RenderOutcome.errorMessage`-style output via `st.error`). -/
def chartSection (s : Sheet) (plotType : String) : RenderOutcome :=
  match renderChart s plotType with
  | .ok c => .rendered c
  | .error e => .uncaught e

/-! ### CSV export (line 216) -/

/-- Textual rendering of one cell in `to_csv`. -/
def cellCsv : Cell → String
  | Cell.str t => t
  | Cell.num q => toString q
  | Cell.date d => fmtYMD d
  | Cell.blank => ""

/-- `merged_df.to_csv(index=False)`: the header line followed by one record
per row — no row is filtered out. -/
def to_csv (s : Sheet) : List (List String) :=
  s.header :: s.rows.map (fun r => r.map cellCsv)

/-! ### The `@st.cache_data` cache (line 24) -/

/-- Lookup in the memoization table of `st.cache_data`, keyed by the argument
of `load_excel` (the file path). -/
def lookupCache : List (String × LoadResult) → String → Option LoadResult
  | [], _ => none
  | (p, r) :: rest, q => if p = q then some r else lookupCache rest q

/-- One call of the cached `load_excel`: a hit returns the memoized result
without re-parsing; a miss parses (`parsed = true`) and stores the result
under the path key.  Returns (result, new cache state, parsed?). -/
def load_excel_cached (cache : List (String × LoadResult)) (path : String) (f : ExcelFile) :
    LoadResult × List (String × LoadResult) × Bool :=
  match lookupCache cache path with
  | some r => (r, cache, false)
  | none => (load_excel f, (path, load_excel f) :: cache, true)

/-! ### Sidebar source resolution (lines 58-85) -/

/-- Inputs of one script run: the default `data/data.xlsx` when it exists,
the previously uploaded files (never empty names), the selectbox index, the
file uploaded in this interaction, and whether saving it succeeds. -/
structure Env where
  defaultFile : Option ExcelFile
  prevFiles : List (String × ExcelFile)
  selIdx : Nat
  uploaded : Option ExcelFile
  saveOk : Bool

/-- The previously uploaded file picked by the selectbox: the selectbox always
has a selection when its option list is nonempty (index 0 by default). -/
def selectedPrev (env : Env) : ExcelFile :=
  (env.prevFiles.getD (env.selIdx % env.prevFiles.length) ("", [])).2

/-- Lines 58-85 in program order: load the default file if it exists, then
unconditionally reload from the selectbox when any previously uploaded file
exists, then — when a file was uploaded in this interaction and saving it
succeeded — load the uploaded file, overwriting the earlier tables. -/
def resolveTables (env : Env) : LoadResult :=
  let t0 : LoadResult :=
    match env.defaultFile with
    | some fl => load_excel fl
    | none => (none, none, none)
  let t1 : LoadResult :=
    match env.prevFiles with
    | [] => t0
    | _ :: _ => load_excel (selectedPrev env)
  match env.uploaded with
  | some fl => if env.saveOk then load_excel fl else t1
  | none => t1

/-! ### Concrete tables used to instantiate the theorems below
(the example scenario of the specification: entries A1/A2 in month 2024-01
with values 100/200 and qualities Alta/Baja, plus an unmatched code Z9). -/

/-- Entradas sheet of the running example. -/
def entradasSheetW : Sheet :=
  ⟨["codigo", "fecha_entrada_caja", "fecha_preparación_caja", "valor"],
   [[Cell.str "A1", Cell.str "01/01/24", Cell.str "02/01/24", Cell.num 100],
    [Cell.str "A2", Cell.str "01/01/24", Cell.str "02/01/24", Cell.num 200],
    [Cell.str "Z9", Cell.str "05/03/24", Cell.str "06/03/24", Cell.num 50]]⟩

/-- Familias sheet of the running example; code Z9 has no row here. -/
def familiasSheetW : Sheet :=
  ⟨["CODIGO", "FAMILIA", "ORIGEN", "CALIDAD"],
   [[Cell.str "A1", Cell.str "F1", Cell.str "ES", Cell.str "Alta"],
    [Cell.str "A2", Cell.str "F1", Cell.str "ES", Cell.str "Baja"]]⟩

/-- The running example workbook. -/
def exampleFile : ExcelFile :=
  [("Entradas", entradasSheetW), ("Familias", familiasSheetW)]

/-- Merged table of a load result (the sheet bound to `merged_df`);
degenerate on a failed load, where the script renders no chart at all. -/
def mergedOf (r : LoadResult) : Sheet :=
  match r.2.2 with
  | some m => m
  | none => ⟨[], []⟩

/-- The joined table of the running example after the derived columns of
lines 112-113 were added: the sheet every chart mode aggregates. -/
def exampleJoined : Sheet := addDerivedCols (mergedOf (load_excel exampleFile))

/-- A workbook whose Familias sheet lacks the `CALIDAD` column; it loads
successfully because the loader only needs `CODIGO` for the merge. -/
def noCalidadFile : ExcelFile :=
  [("Entradas", entradasSheetW),
   ("Familias", ⟨["CODIGO", "FAMILIA", "ORIGEN"],
     [[Cell.str "A1", Cell.str "F1", Cell.str "ES"]]⟩)]

/-- Joined table of `noCalidadFile`: no `CALIDAD` column anywhere. -/
def noCalidadJoined : Sheet := addDerivedCols (mergedOf (load_excel noCalidadFile))

/-! ### Helper lemmas about lists, counting and column access -/

theorem take_len_append {α : Type} (l1 l2 : List α) : (l1 ++ l2).take l1.length = l1 := by
  induction l1 with
  | nil => rfl
  | cons a t ih => simp [ih]

theorem drop_len_append {α : Type} (l1 l2 : List α) : (l1 ++ l2).drop l1.length = l2 := by
  induction l1 with
  | nil => rfl
  | cons a t ih => simp [ih]

theorem getCellAt_append_lt (l1 l2 : List Cell) (i : Nat) (h : i < l1.length) :
    getCellAt (l1 ++ l2) i = getCellAt l1 i := by
  induction l1 generalizing i with
  | nil => cases h
  | cons a t ih =>
    cases i with
    | zero => rfl
    | succ k => exact ih k (Nat.lt_of_succ_lt_succ h)

theorem getCellAt_set_ne (row : List Cell) (i k : Nat) (v : Cell) (h : i ≠ k) :
    getCellAt (row.set i v) k = getCellAt row k := by
  induction row generalizing i k with
  | nil => rfl
  | cons a t ih =>
    cases i with
    | zero =>
      cases k with
      | zero => exact absurd rfl h
      | succ k2 => rfl
    | succ i2 =>
      cases k with
      | zero => rfl
      | succ k2 => exact ih i2 k2 (fun he => h (by rw [he]))

theorem colIdx?_lt_length (h : List String) (c : String) (i : Nat) (hc : colIdx? h c = some i) :
    i < h.length := by
  induction h generalizing i with
  | nil => cases hc
  | cons a t ih =>
    unfold colIdx? at hc
    by_cases ha : a = c
    · rw [if_pos ha] at hc
      injection hc with hc
      subst hc
      exact Nat.succ_pos _
    · rw [if_neg ha] at hc
      cases ht : colIdx? t c with
      | none => rw [ht] at hc; cases hc
      | some i0 =>
        rw [ht] at hc
        injection hc with hc
        subst hc
        exact Nat.succ_lt_succ (ih i0 ht)

theorem colIdx?_getD (h : List String) (c : String) (i : Nat) (hc : colIdx? h c = some i) :
    h.getD i "" = c := by
  induction h generalizing i with
  | nil => cases hc
  | cons a t ih =>
    unfold colIdx? at hc
    by_cases ha : a = c
    · rw [if_pos ha] at hc
      injection hc with hc
      subst hc
      simpa using ha
    · rw [if_neg ha] at hc
      cases ht : colIdx? t c with
      | none => rw [ht] at hc; cases hc
      | some i0 =>
        rw [ht] at hc
        injection hc with hc
        subst hc
        simpa using ih i0 ht

theorem colIdx?_ne (h : List String) (c1 c2 : String) (i1 i2 : Nat)
    (hne : c1 ≠ c2) (h1 : colIdx? h c1 = some i1) (h2 : colIdx? h c2 = some i2) :
    i1 ≠ i2 := by
  intro he
  subst he
  exact hne (by rw [← colIdx?_getD h c1 i1 h1, colIdx?_getD h c2 i1 h2])

theorem cnt_nil {α : Type} [DecidableEq α] (x : α) : cnt x ([] : List α) = 0 := rfl

theorem cnt_cons {α : Type} [DecidableEq α] (x a : α) (l : List α) :
    cnt x (a :: l) = cnt x l + if a = x then 1 else 0 := by
  by_cases h : a = x <;> simp [cnt, List.filter_cons, h]

theorem cnt_append {α : Type} [DecidableEq α] (x : α) (l1 l2 : List α) :
    cnt x (l1 ++ l2) = cnt x l1 + cnt x l2 := by
  simp [cnt, List.filter_append]

theorem cnt_map_const {α β : Type} [DecidableEq α] (er x : α) (ms : List β) :
    cnt x (ms.map (fun _ => er)) = if er = x then ms.length else 0 := by
  induction ms with
  | nil => by_cases h : er = x <;> simp [cnt, h]
  | cons m t ih =>
    rw [List.map_cons, cnt_cons, ih]
    by_cases h : er = x <;> simp [h]

theorem sum_map_add {α : Type} (cols : List α) (g1 g2 : α → Nat) :
    (cols.map (fun c => g1 c + g2 c)).sum = (cols.map g1).sum + (cols.map g2).sum := by
  induction cols with
  | nil => rfl
  | cons a t ih =>
    simp only [List.map_cons, List.sum_cons, ih]
    omega

theorem sum_ite_notmem {α : Type} [DecidableEq α] (a : α) (cols : List α) (h : a ∉ cols) :
    (cols.map (fun c => if a = c then (1 : Nat) else 0)).sum = 0 := by
  induction cols with
  | nil => rfl
  | cons b t ih =>
    rw [List.mem_cons, not_or] at h
    simp only [List.map_cons, List.sum_cons, ih h.2, if_neg h.1]

theorem sum_ite_single {α : Type} [DecidableEq α] (a : α) (cols : List α)
    (hnd : cols.Nodup) (h : a ∈ cols) :
    (cols.map (fun c => if a = c then (1 : Nat) else 0)).sum = 1 := by
  induction cols with
  | nil => cases h
  | cons b t ih =>
    rw [List.nodup_cons] at hnd
    rcases List.mem_cons.mp h with h1 | h1
    · rw [List.map_cons, List.sum_cons, if_pos h1,
        sum_ite_notmem a t (by rw [h1]; exact hnd.1)]
    · have hne : a ≠ b := fun he => hnd.1 (he ▸ h1)
      rw [List.map_cons, List.sum_cons, if_neg hne, ih hnd.2 h1]

theorem sum_cnt_superset {α : Type} [DecidableEq α] (L cols : List α)
    (hnd : cols.Nodup) (hsub : ∀ x ∈ L, x ∈ cols) :
    (cols.map (fun c => cnt c L)).sum = L.length := by
  induction L with
  | nil => simp [cnt]
  | cons a t ih =>
    have step : (cols.map (fun c => cnt c (a :: t))).sum
        = (cols.map (fun c => cnt c t)).sum + (cols.map (fun c => if a = c then 1 else 0)).sum := by
      rw [← sum_map_add]
      simp only [cnt_cons]
    rw [step, ih (fun x hx => hsub x (List.mem_cons_of_mem _ hx)),
      sum_ite_single a cols hnd (hsub a (List.mem_cons_self _ _))]
    rfl

theorem mem_concatMap {α β : Type} (g : α → List β) (l : List α) (b : β) :
    b ∈ concatMap g l ↔ ∃ a ∈ l, b ∈ g a := by
  induction l with
  | nil => simp [concatMap]
  | cons a t ih => simp [concatMap, List.mem_append, ih]

theorem except_map_ok {α β : Type} (g : α → β) (x : Except String α) (b : β)
    (h : x.map g = .ok b) : ∃ a, x = .ok a ∧ b = g a := by
  cases x with
  | error e => simp [Except.map] at h
  | ok a =>
    refine ⟨a, rfl, ?_⟩
    have : (Except.ok (g a) : Except String β) = .ok b := h
    injection this with h2
    exact h2.symm

theorem cnt_pair_eq_cnt_snd {α β : Type} [DecidableEq α] [DecidableEq β]
    (k : α) (c : β) (P : List (α × β)) (hP : ∀ p ∈ P, p.1 = k) :
    cnt (k, c) P = cnt c (P.map Prod.snd) := by
  induction P with
  | nil => rfl
  | cons p t ih =>
    obtain ⟨p1, p2⟩ := p
    have hp1 : p1 = k := hP (p1, p2) (List.mem_cons_self _ _)
    subst hp1
    rw [List.map_cons, cnt_cons, cnt_cons, ih (fun q hq => hP q (List.mem_cons_of_mem _ hq))]
    by_cases h : p2 = c <;> simp [h, Prod.ext_iff]

theorem cnt_filter_fst {α β : Type} [DecidableEq α] [DecidableEq β]
    (k : α) (c : β) (pairs : List (α × β)) :
    cnt (k, c) (pairs.filter (fun p => decide (p.1 = k))) = cnt (k, c) pairs := by
  induction pairs with
  | nil => rfl
  | cons p t ih =>
    obtain ⟨p1, p2⟩ := p
    by_cases h1 : p1 = k
    · rw [List.filter_cons, if_pos (by simpa using h1), cnt_cons, ih, cnt_cons]
    · rw [List.filter_cons, if_neg (by simpa using h1), ih, cnt_cons,
        if_neg (fun he => h1 (congrArg Prod.fst he)), Nat.add_zero]

theorem list_sum_div (l : List Nat) (T : ℚ) :
    (l.map (fun n : Nat => (n : ℚ) / T)).sum = ((l.sum : Nat) : ℚ) / T := by
  induction l with
  | nil => simp
  | cons a t ih =>
    simp only [List.map_cons, List.sum_cons, ih]
    rw [Nat.cast_add, add_div]

theorem pivot_row_sum (pairs : List (Cell × Cell)) (k : Cell)
    (hk : k ∈ (pairs.map Prod.fst).dedup) :
    (((pairs.map Prod.snd).dedup).map (fun c => cnt (k, c) pairs)).sum
      = (pairs.filter (fun p => decide (p.1 = k))).length ∧
    0 < (pairs.filter (fun p => decide (p.1 = k))).length := by
  constructor
  · have e1 : ∀ c, cnt (k, c) pairs
        = cnt c ((pairs.filter (fun p => decide (p.1 = k))).map Prod.snd) := by
      intro c
      rw [← cnt_filter_fst k c pairs]
      exact cnt_pair_eq_cnt_snd k c _ (fun p hp => by
        have := (List.mem_filter.mp hp).2
        simpa using this)
    have sub : ∀ x ∈ (pairs.filter (fun p => decide (p.1 = k))).map Prod.snd,
        x ∈ (pairs.map Prod.snd).dedup := by
      intro x hx
      obtain ⟨p, hp, hpx⟩ := List.mem_map.mp hx
      exact List.mem_dedup.mpr (List.mem_map.mpr ⟨p, List.mem_of_mem_filter hp, hpx⟩)
    calc (((pairs.map Prod.snd).dedup).map (fun c => cnt (k, c) pairs)).sum
        = (((pairs.map Prod.snd).dedup).map
            (fun c => cnt c ((pairs.filter (fun p => decide (p.1 = k))).map Prod.snd))).sum := by
          simp only [e1]
      _ = ((pairs.filter (fun p => decide (p.1 = k))).map Prod.snd).length :=
          sum_cnt_superset _ _ (List.nodup_dedup _) sub
      _ = (pairs.filter (fun p => decide (p.1 = k))).length := List.length_map _ _
  · obtain ⟨p, hp, hpk⟩ := List.mem_map.mp (List.mem_dedup.mp hk)
    have : p ∈ pairs.filter (fun q => decide (q.1 = k)) :=
      List.mem_filter.mpr ⟨hp, by simpa using hpk⟩
    exact List.length_pos.mpr (fun he => by rw [he] at this; cases this)

theorem divRowSum_pivot_sum_one (pairs : List (Cell × Cell)) :
    ∀ p ∈ divRowSum (pivotTable pairs), (p.2).sum = 1 := by
  intro p hp
  unfold divRowSum at hp
  obtain ⟨kr, hkr, hke⟩ := List.mem_map.mp hp
  unfold pivotTable at hkr
  obtain ⟨k, hk, hkr2⟩ := List.mem_map.mp hkr
  obtain ⟨hsum, hpos⟩ := pivot_row_sum pairs k hk
  have h2 : (p.2).sum = ((((pairs.map Prod.snd).dedup).map (fun c => cnt (k, c) pairs)).map
      (fun n : Nat => (n : ℚ) /
        (((((pairs.map Prod.snd).dedup).map (fun c => cnt (k, c) pairs)).sum : Nat) : ℚ))).sum := by
    rw [← hke, ← hkr2]
  rw [h2, list_sum_div, hsum]
  exact div_self (by
    have hq : (0 : ℚ) < ((pairs.filter (fun q => decide (q.1 = k))).length : ℚ) := by
      exact_mod_cast hpos
    exact ne_of_gt hq)

theorem pivot_keys_mem (pairs : List (Cell × Cell)) (k : Cell) :
    (∃ row, (k, row) ∈ divRowSum (pivotTable pairs)) ↔ ∃ c, (k, c) ∈ pairs := by
  constructor
  · rintro ⟨row, hm⟩
    unfold divRowSum at hm
    obtain ⟨kr, hkr, hke⟩ := List.mem_map.mp hm
    unfold pivotTable at hkr
    obtain ⟨k2, hk2, hkr2⟩ := List.mem_map.mp hkr
    have h1 : k2 = kr.1 := congrArg Prod.fst hkr2
    have h2 : kr.1 = k := congrArg Prod.fst hke
    have hkk : k2 = k := h1.trans h2
    subst hkk
    obtain ⟨p, hp, hpk⟩ := List.mem_map.mp (List.mem_dedup.mp hk2)
    refine ⟨p.2, ?_⟩
    have hpe : (k2, p.2) = p := Prod.ext hpk.symm rfl
    rw [hpe]
    exact hp
  · rintro ⟨c, hc⟩
    have hk : k ∈ (pairs.map Prod.fst).dedup :=
      List.mem_dedup.mpr (List.mem_map.mpr ⟨(k, c), hc, rfl⟩)
    unfold divRowSum pivotTable
    exact ⟨(((pairs.map Prod.snd).dedup).map (fun c2 => cnt (k, c2) pairs)).map
        (fun n : Nat => (n : ℚ) /
          (((((pairs.map Prod.snd).dedup).map (fun c2 => cnt (k, c2) pairs)).sum : Nat) : ℚ)),
      List.mem_map.mpr ⟨(k, ((pairs.map Prod.snd).dedup).map (fun c2 => cnt (k, c2) pairs)),
        List.mem_map.mpr ⟨k, hk, rfl⟩, rfl⟩⟩

theorem exMapM_error_of_mem {α β : Type} (g : α → Except String β) (l : List α) (x : α)
    (e : String) (hx : x ∈ l) (he : g x = .error e) : ∃ e2, exMapM g l = .error e2 := by
  induction l with
  | nil => cases hx
  | cons a t ih =>
    unfold exMapM
    cases hga : g a with
    | error e3 => exact ⟨e3, rfl⟩
    | ok b =>
      rcases List.mem_cons.mp hx with h | h
      · subst h
        rw [hga] at he
        cases he
      · obtain ⟨e2, h2⟩ := ih h
        rw [h2]
        exact ⟨e2, rfl⟩

theorem exMapM_ok_mem {α β : Type} (g : α → Except String β) (l : List α) (l2 : List β)
    (h : exMapM g l = .ok l2) : ∀ x ∈ l, ∃ y ∈ l2, g x = .ok y := by
  induction l generalizing l2 with
  | nil => intro x hx; cases hx
  | cons a t ih =>
    unfold exMapM at h
    cases hga : g a with
    | error e => rw [hga] at h; cases h
    | ok b =>
      rw [hga] at h
      cases hm : exMapM g t with
      | error e => rw [hm] at h; cases h
      | ok bs =>
        rw [hm] at h
        injection h with h
        subst h
        intro x hx
        rcases List.mem_cons.mp hx with hxa | hxt
        · subst hxa
          exact ⟨b, List.mem_cons_self _ _, hga⟩
        · obtain ⟨y, hy, hgy⟩ := ih bs hm x hxt
          exact ⟨y, List.mem_cons_of_mem _ hy, hgy⟩

theorem convertDateCol_error_of_bad (s : Sheet) (c : String) (i : Nat) (row : List Cell)
    (t : String) (hi : colIdx? s.header c = some i) (hrow : row ∈ s.rows)
    (hcell : getCellAt row i = Cell.str t) (hbad : parseDDMMYY t = none) :
    ∃ e, convertDateCol s c = .error e := by
  have herr0 : parseCellDate (getCellAt row i)
      = .error ("time data " ++ t ++ " does not match format %d/%m/%y") := by
    rw [hcell]
    show (match parseDDMMYY t with
      | some d => Except.ok (Cell.date d)
      | none => Except.error ("time data " ++ t ++ " does not match format %d/%m/%y")) = _
    rw [hbad]
  have herr : (parseCellDate (getCellAt row i)).map (fun cl => row.set i cl)
      = Except.error ("time data " ++ t ++ " does not match format %d/%m/%y") := by
    rw [herr0]
    rfl
  obtain ⟨e2, h2⟩ := exMapM_error_of_mem
    (fun row => (parseCellDate (getCellAt row i)).map (fun cl => row.set i cl))
    s.rows row ("time data " ++ t ++ " does not match format %d/%m/%y") hrow herr
  refine ⟨e2, ?_⟩
  unfold convertDateCol
  rw [hi]
  show (match exMapM (fun row => (parseCellDate (getCellAt row i)).map (fun cl => row.set i cl)) s.rows with
    | Except.error e => (Except.error e : Except String Sheet)
    | Except.ok rows2 => Except.ok ⟨s.header, rows2⟩) = Except.error e2
  rw [h2]

theorem convertDateCol_ok_struct (s : Sheet) (c : String) (s2 : Sheet)
    (h : convertDateCol s c = .ok s2) :
    s2.header = s.header ∧
    ∃ i, colIdx? s.header c = some i ∧
      ∀ row ∈ s.rows, ∃ cl, ∃ row2 ∈ s2.rows, row2 = row.set i cl := by
  unfold convertDateCol at h
  cases hi : colIdx? s.header c with
  | none => rw [hi] at h; cases h
  | some i =>
    rw [hi] at h
    replace h : (match exMapM (fun row => (parseCellDate (getCellAt row i)).map (fun cl => row.set i cl)) s.rows with
      | Except.error e => (Except.error e : Except String Sheet)
      | Except.ok rows2 => Except.ok ⟨s.header, rows2⟩) = Except.ok s2 := h
    cases hm : exMapM (fun row => (parseCellDate (getCellAt row i)).map (fun cl => row.set i cl)) s.rows with
    | error e => rw [hm] at h; cases h
    | ok rows2 =>
      rw [hm] at h
      injection h with h
      subst h
      refine ⟨rfl, i, rfl, ?_⟩
      intro row hrow
      obtain ⟨y, hy, hgy⟩ := exMapM_ok_mem _ _ _ hm row hrow
      cases hp : parseCellDate (getCellAt row i) with
      | error e => rw [hp] at hgy; cases hgy
      | ok cl =>
        rw [hp] at hgy
        injection hgy with h3
        exact ⟨cl, y, hy, h3.symm⟩

theorem groupPairs_missing (s : Sheet) (c1 c2 : String)
    (h : colIdx? s.header c1 = none ∨ colIdx? s.header c2 = none) :
    ∃ e, groupPairs s c1 c2 = .error e := by
  cases h1 : colIdx? s.header c1 with
  | none =>
    cases h2 : colIdx? s.header c2 with
    | none =>
      refine ⟨"KeyError: " ++ c1, ?_⟩
      unfold groupPairs
      rw [h1, h2]
    | some j =>
      refine ⟨"KeyError: " ++ c1, ?_⟩
      unfold groupPairs
      rw [h1, h2]
  | some i =>
    cases h2 : colIdx? s.header c2 with
    | none =>
      refine ⟨"KeyError: " ++ c2, ?_⟩
      unfold groupPairs
      rw [h1, h2]
    | some j =>
      rcases h with h | h
      · rw [h1] at h
        cases h
      · rw [h2] at h
        cases h

theorem box_data_missing (s : Sheet)
    (h : colIdx? s.header "CALIDAD" = none ∨ colIdx? s.header "valor" = none) :
    ∃ e, box_data s = .error e := by
  cases h1 : colIdx? s.header "CALIDAD" with
  | none =>
    cases h2 : colIdx? s.header "valor" with
    | none =>
      refine ⟨"KeyError: CALIDAD", ?_⟩
      unfold box_data
      rw [h1, h2]
    | some j =>
      refine ⟨"KeyError: CALIDAD", ?_⟩
      unfold box_data
      rw [h1, h2]
  | some i =>
    cases h2 : colIdx? s.header "valor" with
    | none =>
      refine ⟨"KeyError: valor", ?_⟩
      unfold box_data
      rw [h1, h2]
    | some j =>
      rcases h with h | h
      · rw [h1] at h
        cases h
      · rw [h2] at h
        cases h

theorem value_by_month_missing (s : Sheet)
    (h : colIdx? s.header "mes" = none ∨ colIdx? s.header "valor" = none) :
    ∃ e, value_by_month s = .error e := by
  cases h1 : colIdx? s.header "mes" with
  | none =>
    cases h2 : colIdx? s.header "valor" with
    | none =>
      refine ⟨"KeyError: mes", ?_⟩
      unfold value_by_month
      rw [h1, h2]
    | some j =>
      refine ⟨"KeyError: mes", ?_⟩
      unfold value_by_month
      rw [h1, h2]
  | some i =>
    cases h2 : colIdx? s.header "valor" with
    | none =>
      refine ⟨"KeyError: valor", ?_⟩
      unfold value_by_month
      rw [h1, h2]
    | some j =>
      rcases h with h | h
      · rw [h1] at h
        cases h
      · rw [h2] at h
        cases h

theorem avg_value_missing (s : Sheet)
    (h : colIdx? s.header "ORIGEN" = none ∨ colIdx? s.header "CALIDAD" = none ∨
      colIdx? s.header "valor" = none) :
    ∃ e, avg_value s = .error e := by
  cases h1 : colIdx? s.header "ORIGEN" with
  | none =>
    cases h2 : colIdx? s.header "CALIDAD" with
    | none =>
      cases h3 : colIdx? s.header "valor" with
      | none =>
        refine ⟨"KeyError: ORIGEN", ?_⟩
        unfold avg_value
        rw [h1, h2, h3]
      | some v =>
        refine ⟨"KeyError: ORIGEN", ?_⟩
        unfold avg_value
        rw [h1, h2, h3]
    | some j =>
      cases h3 : colIdx? s.header "valor" with
      | none =>
        refine ⟨"KeyError: ORIGEN", ?_⟩
        unfold avg_value
        rw [h1, h2, h3]
      | some v =>
        refine ⟨"KeyError: ORIGEN", ?_⟩
        unfold avg_value
        rw [h1, h2, h3]
  | some i =>
    cases h2 : colIdx? s.header "CALIDAD" with
    | none =>
      cases h3 : colIdx? s.header "valor" with
      | none =>
        refine ⟨"KeyError: CALIDAD", ?_⟩
        unfold avg_value
        rw [h1, h2, h3]
      | some v =>
        refine ⟨"KeyError: CALIDAD", ?_⟩
        unfold avg_value
        rw [h1, h2, h3]
    | some j =>
      cases h3 : colIdx? s.header "valor" with
      | none =>
        refine ⟨"KeyError: valor", ?_⟩
        unfold avg_value
        rw [h1, h2, h3]
      | some v =>
        rcases h with h | h | h
        · rw [h1] at h
          cases h
        · rw [h2] at h
          cases h
        · rw [h3] at h
          cases h

theorem joinRows_cnt (fhdr : List String) (fRows : List (List Cell)) (j i : Nat)
    (er er2 : List Cell) (n : Nat) (hn : er.length = n) :
    cnt er2 ((joinRows fhdr fRows j i er).map (fun mr => mr.take n)) =
      (if er = er2 then 1 else 0) * max 1 (matchesFor fRows j (getCellAt er i)).length := by
  unfold joinRows
  cases hms : matchesFor fRows j (getCellAt er i) with
  | nil =>
    have htake : (er ++ fhdr.map (fun _ => Cell.blank)).take n = er := by
      rw [← hn]
      exact take_len_append _ _
    rw [List.map_cons, List.map_nil, htake, cnt_cons, cnt_nil]
    by_cases h : er = er2 <;> simp [h]
  | cons m ms =>
    have htake : ∀ fr, ((fun mr => mr.take n) ∘ (fun fr => er ++ fr)) fr = er := by
      intro fr
      show (er ++ fr).take n = er
      rw [← hn]
      exact take_len_append _ _
    rw [List.map_map, List.map_congr_left (fun fr _ => htake fr), cnt_map_const]
    have hmax : max 1 (m :: ms).length = (m :: ms).length :=
      Nat.max_eq_right (Nat.succ_le_succ (Nat.zero_le _))
    rw [hmax]
    by_cases h : er = er2 <;> simp [h]

theorem mergeRows_cnt (fhdr : List String) (fRows : List (List Cell)) (j i : Nat)
    (eRows : List (List Cell)) (n : Nat) (hrect : ∀ r ∈ eRows, r.length = n)
    (er2 : List Cell) :
    cnt er2 ((concatMap (joinRows fhdr fRows j i) eRows).map (fun mr => mr.take n)) =
      cnt er2 eRows * max 1 (matchesFor fRows j (getCellAt er2 i)).length := by
  induction eRows with
  | nil => simp [concatMap, cnt]
  | cons er t ih =>
    rw [show concatMap (joinRows fhdr fRows j i) (er :: t)
        = joinRows fhdr fRows j i er ++ concatMap (joinRows fhdr fRows j i) t from rfl]
    rw [List.map_append, cnt_append,
      joinRows_cnt fhdr fRows j i er er2 n (hrect er (List.mem_cons_self _ _)),
      ih (fun r hr => hrect r (List.mem_cons_of_mem _ hr)), cnt_cons]
    by_cases h : er = er2
    · subst h
      simp only [if_pos rfl]
      ring
    · simp only [if_neg h]
      ring

theorem filterMap_cons_of_none {α β : Type} (f : α → Option β) (a : α) (l : List α)
    (h : f a = none) : (a :: l).filterMap f = l.filterMap f := by
  rw [List.filterMap_cons, h]

theorem loadExcelE_eq (f : ExcelFile) (ent fam : Sheet)
    (hent : findSheet f "Entradas" = .ok ent) (hfam : findSheet f "Familias" = .ok fam) :
    loadExcelE f =
      (match convertDateCol ent "fecha_entrada_caja" with
      | .error e => .error e
      | .ok entradas1 =>
        match convertDateCol entradas1 "fecha_preparación_caja" with
        | .error e => .error e
        | .ok entradas =>
          match mergeLeftOn entradas fam with
          | .error e => .error e
          | .ok merged => .ok (entradas, fam, merged)) := by
  unfold loadExcelE
  rw [hent, hfam]

/-! ### Claims -/

/-- C4: for every input on which loading fails for any reason (missing
sheet, missing column, unparseable date, malformed file), `load_excel`
catches the failure at its boundary, emits the user-facing `st.error`
message, and returns the uniform no-data triple `(None, None, None)`
instead of propagating the exception; conversely a successful load returns
three `some` tables and no error message, so "no data" is exactly the
failure signal.  Missing-sheet and missing-date-column failures are shown
to be genuine failure modes of the body. -/
theorem load_error_boundary :
    (∀ (f : ExcelFile) (e : String), loadExcelE f = .error e →
      load_excel f = (none, none, none) ∧
      load_excel_msg f = some ("Error al cargar el archivo Excel: " ++ e)) ∧
    (∀ (f : ExcelFile) (a b c : Sheet), loadExcelE f = .ok (a, b, c) →
      load_excel f = (some a, some b, some c) ∧ load_excel_msg f = none) ∧
    (∀ (f : ExcelFile) (e : String),
      (findSheet f "Entradas" = .error e ∨ findSheet f "Familias" = .error e) →
      ∃ e2, loadExcelE f = .error e2) ∧
    (∀ (f : ExcelFile) (ent : Sheet), findSheet f "Entradas" = .ok ent →
      colIdx? ent.header "fecha_entrada_caja" = none →
      ∃ e2, loadExcelE f = .error e2) := by
  refine ⟨?_, ?_, ?_, ?_⟩
  · intro f e h
    constructor
    · unfold load_excel
      rw [h]
    · unfold load_excel_msg
      rw [h]
  · intro f a b c h
    constructor
    · unfold load_excel
      rw [h]
    · unfold load_excel_msg
      rw [h]
  · intro f e h
    unfold loadExcelE
    rcases h with h | h
    · rw [h]
      exact ⟨e, rfl⟩
    · cases hE : findSheet f "Entradas" with
      | error e2 => exact ⟨e2, rfl⟩
      | ok ent =>
        rw [h]
        exact ⟨e, rfl⟩
  · intro f ent hent hcol
    cases hF : findSheet f "Familias" with
    | error e2 =>
      refine ⟨e2, ?_⟩
      unfold loadExcelE
      rw [hent, hF]
    | ok fam =>
      have hconv : convertDateCol ent "fecha_entrada_caja"
          = .error ("KeyError: " ++ "fecha_entrada_caja") := by
        unfold convertDateCol
        rw [hcol]
      refine ⟨"KeyError: " ++ "fecha_entrada_caja", ?_⟩
      rw [loadExcelE_eq f ent fam hent hF, hconv]

/-- C4 witness: a workbook with no sheets fails with a missing-sheet error;
the call site observes the None triple and the Spanish error message. -/
theorem load_error_boundary_witness :
    loadExcelE ([] : ExcelFile) = .error "Worksheet named Entradas not found" ∧
    load_excel ([] : ExcelFile) = (none, none, none) ∧
    load_excel_msg ([] : ExcelFile)
      = some "Error al cargar el archivo Excel: Worksheet named Entradas not found" := by
  refine ⟨rfl, ?_, ?_⟩
  · exact (load_error_boundary.1 [] "Worksheet named Entradas not found" rfl).1
  · exact (load_error_boundary.1 [] "Worksheet named Entradas not found" rfl).2

/-- C9: calling the cached loader twice with the same file identity (same
path key and same content) yields identical result triples; the second call
is answered from the cache without re-parsing (`parsed = false`), and on a
fresh cache the first call parses and returns exactly `load_excel` of the
content. -/
theorem load_cached_idempotent :
    ∀ (cache : List (String × LoadResult)) (path : String) (f : ExcelFile),
      (load_excel_cached (load_excel_cached cache path f).2.1 path f).1
        = (load_excel_cached cache path f).1 ∧
      (load_excel_cached (load_excel_cached cache path f).2.1 path f).2.2 = false ∧
      (lookupCache cache path = none →
        (load_excel_cached cache path f).1 = load_excel f ∧
        (load_excel_cached cache path f).2.2 = true) := by
  intro cache path f
  cases h : lookupCache cache path with
  | some r =>
    refine ⟨?_, ?_, ?_⟩
    · simp [load_excel_cached, h]
    · simp [load_excel_cached, h]
    · intro hn
      exact Option.noConfusion hn
  | none =>
    have hsecond : lookupCache ((path, load_excel f) :: cache) path = some (load_excel f) := by
      unfold lookupCache
      rw [if_pos rfl]
    refine ⟨?_, ?_, fun _ => ⟨?_, ?_⟩⟩
    · simp [load_excel_cached, h, hsecond]
    · simp [load_excel_cached, h, hsecond]
    · simp [load_excel_cached, h]
    · simp [load_excel_cached, h]

/-- C9 witness: on the empty cache, loading the example workbook parses once
and returns `load_excel` of it. -/
theorem load_cached_idempotent_witness :
    lookupCache [] "uploaded_files/data.xlsx" = none ∧
    (load_excel_cached [] "uploaded_files/data.xlsx" exampleFile).1 = load_excel exampleFile ∧
    (load_excel_cached [] "uploaded_files/data.xlsx" exampleFile).2.2 = true := by
  refine ⟨rfl, ?_, ?_⟩
  · exact ((load_cached_idempotent [] "uploaded_files/data.xlsx" exampleFile).2.2 rfl).1
  · exact ((load_cached_idempotent [] "uploaded_files/data.xlsx" exampleFile).2.2 rfl).2

/-- C10 counterexample: with an existing default file that loads
successfully and an upload (in the same interaction) that fails to load,
the displayed tables are the no-data triple — not the tables of the last
successful load (the default file's), as the claim states. -/
theorem last_successful_load_cex :
    resolveTables ⟨some exampleFile, [], 0, some ([] : ExcelFile), true⟩ = (none, none, none) ∧
    load_excel exampleFile ≠ (none, none, none) := by
  constructor
  · rfl
  · decide

/-- C10 amended: sources are resolved in the fixed order default file (if it
exists), then the selected previously-uploaded file (whenever any exist),
then the file uploaded in this interaction (when present and successfully
saved); the last attempted load in this order determines the tables — a
failed last load yields the no-data triple even if an earlier source loaded
successfully, and a failed save skips the upload, keeping the earlier
resolution. -/
theorem source_precedence :
    ∀ env : Env,
      (∀ fl, env.uploaded = some fl → env.saveOk = true →
        resolveTables env = load_excel fl) ∧
      ((env.uploaded = none ∨ env.saveOk = false) → env.prevFiles ≠ [] →
        resolveTables env = load_excel (selectedPrev env)) ∧
      ((env.uploaded = none ∨ env.saveOk = false) → env.prevFiles = [] →
        ∀ fl, env.defaultFile = some fl → resolveTables env = load_excel fl) ∧
      ((env.uploaded = none ∨ env.saveOk = false) → env.prevFiles = [] →
        env.defaultFile = none → resolveTables env = (none, none, none)) := by
  intro env
  refine ⟨?_, ?_, ?_, ?_⟩
  · intro fl hup hsv
    simp [resolveTables, hup, hsv]
  · intro h hne
    cases hpf : env.prevFiles with
    | nil => exact absurd hpf hne
    | cons a t =>
      rcases h with h | h
      · simp [resolveTables, h, hpf, selectedPrev]
      · cases hup : env.uploaded with
        | none => simp [resolveTables, hup, hpf, selectedPrev]
        | some fl => simp [resolveTables, hup, h, hpf, selectedPrev]
  · intro h hpf fl hdf
    rcases h with h | h
    · simp [resolveTables, h, hpf, hdf]
    · cases hup : env.uploaded with
      | none => simp [resolveTables, hup, hpf, hdf]
      | some fl2 => simp [resolveTables, hup, h, hpf, hdf]
  · intro h hpf hdf
    rcases h with h | h
    · simp [resolveTables, h, hpf, hdf]
    · cases hup : env.uploaded with
      | none => simp [resolveTables, hup, hpf, hdf]
      | some fl2 => simp [resolveTables, hup, h, hpf, hdf]

/-- C10 amended witness: an interaction with only a successfully saved
upload resolves to the uploaded file's load result. -/
theorem source_precedence_witness :
    resolveTables ⟨none, [], 0, some exampleFile, true⟩ = load_excel exampleFile :=
  (source_precedence ⟨none, [], 0, some exampleFile, true⟩).1 exampleFile rfl rfl

/-- C5 counterexample: a workbook whose Familias sheet has no `CALIDAD`
column loads successfully; selecting the Quality-by-Month mode then raises
`KeyError: CALIDAD`, which escapes the chart dispatch uncaught — it is not
converted into a user-visible message anywhere in the script. -/
theorem missing_column_caught_cex :
    chartSection noCalidadJoined "Distribución de Calidad por Mes"
      = RenderOutcome.uncaught "KeyError: CALIDAD" ∧
    ¬ ∃ m, chartSection noCalidadJoined "Distribución de Calidad por Mes"
      = RenderOutcome.errorMessage m := by
  constructor
  · rfl
  · rintro ⟨m, hm⟩
    rw [show chartSection noCalidadJoined "Distribución de Calidad por Mes"
      = RenderOutcome.uncaught "KeyError: CALIDAD" from rfl] at hm
    exact RenderOutcome.noConfusion hm

/-- Columns accessed by the aggregation of each chart mode in lines
128-211: the group keys of the three proportion modes, `CALIDAD`/`valor`
for the box plot, `mes`/`valor` for the dual series, and
`ORIGEN`/`CALIDAD`/`valor` for the grouped means; a label outside the
selectbox's six options accesses none. -/
def requiredCols (pt : String) : List String :=
  if pt = "Distribución de Calidad por Mes" then ["mes", "CALIDAD"]
  else if pt = "Distribución de Calidad por Origen" then ["ORIGEN", "CALIDAD"]
  else if pt = "Distribución de Valores por Calidad" then ["CALIDAD", "valor"]
  else if pt = "Valor por Mes" then ["mes", "valor"]
  else if pt = "Distribución de Calidad por Familia" then ["FAMILIA", "CALIDAD"]
  else if pt = "Valor Promedio por Origen y Calidad" then ["ORIGEN", "CALIDAD", "valor"]
  else []

/-- C5 amended: for every joined table lacking any column required by the
selected chart mode, the aggregation of that mode fails with a
missing-column `KeyError`; the repository code contains no handler for it —
the chart section ends in the uncaught-exception outcome (propagating to
the surrounding framework), never in a script-produced user message, and no
chart is rendered. -/
theorem missing_column_error_propagates :
    ∀ (s : Sheet) (pt : String) (c : String),
      c ∈ requiredCols pt → colIdx? s.header c = none →
      ∃ e, chartSection s pt = RenderOutcome.uncaught e ∧
        ∀ m, chartSection s pt ≠ RenderOutcome.errorMessage m := by
  intro s pt c hc hcol
  have build : ∀ e, renderChart s pt = .error e →
      chartSection s pt = RenderOutcome.uncaught e ∧
        ∀ m, chartSection s pt ≠ RenderOutcome.errorMessage m := by
    intro e he
    have hcs : chartSection s pt = RenderOutcome.uncaught e := by
      unfold chartSection
      rw [he]
    exact ⟨hcs, fun m hm => by
      rw [hcs] at hm
      exact RenderOutcome.noConfusion hm⟩
  by_cases h1 : pt = "Distribución de Calidad por Mes"
  · subst h1
    have hreq : c = "mes" ∨ c = "CALIDAD" := by simpa [requiredCols] using hc
    have hor : colIdx? s.header "mes" = none ∨ colIdx? s.header "CALIDAD" = none := by
      rcases hreq with h | h
      · exact Or.inl (h ▸ hcol)
      · exact Or.inr (h ▸ hcol)
    obtain ⟨e, he⟩ := groupPairs_missing s "mes" "CALIDAD" hor
    refine ⟨e, build e ?_⟩
    have hq : quality_by_month s = .error e := by
      unfold quality_by_month
      rw [he]
      rfl
    unfold renderChart
    rw [if_pos rfl, hq]
    rfl
  by_cases h2 : pt = "Distribución de Calidad por Origen"
  · subst h2
    have hreq : c = "ORIGEN" ∨ c = "CALIDAD" := by simpa [requiredCols] using hc
    have hor : colIdx? s.header "ORIGEN" = none ∨ colIdx? s.header "CALIDAD" = none := by
      rcases hreq with h | h
      · exact Or.inl (h ▸ hcol)
      · exact Or.inr (h ▸ hcol)
    obtain ⟨e, he⟩ := groupPairs_missing s "ORIGEN" "CALIDAD" hor
    refine ⟨e, build e ?_⟩
    have hq : quality_by_origin s = .error e := by
      unfold quality_by_origin
      rw [he]
      rfl
    unfold renderChart
    rw [if_neg (by decide), if_pos rfl, hq]
    rfl
  by_cases h3 : pt = "Distribución de Valores por Calidad"
  · subst h3
    have hreq : c = "CALIDAD" ∨ c = "valor" := by simpa [requiredCols] using hc
    have hor : colIdx? s.header "CALIDAD" = none ∨ colIdx? s.header "valor" = none := by
      rcases hreq with h | h
      · exact Or.inl (h ▸ hcol)
      · exact Or.inr (h ▸ hcol)
    obtain ⟨e, he⟩ := box_data_missing s hor
    refine ⟨e, build e ?_⟩
    unfold renderChart
    rw [if_neg (by decide), if_neg (by decide), if_pos rfl, he]
    rfl
  by_cases h4 : pt = "Valor por Mes"
  · subst h4
    have hreq : c = "mes" ∨ c = "valor" := by simpa [requiredCols] using hc
    have hor : colIdx? s.header "mes" = none ∨ colIdx? s.header "valor" = none := by
      rcases hreq with h | h
      · exact Or.inl (h ▸ hcol)
      · exact Or.inr (h ▸ hcol)
    obtain ⟨e, he⟩ := value_by_month_missing s hor
    refine ⟨e, build e ?_⟩
    unfold renderChart
    rw [if_neg (by decide), if_neg (by decide), if_neg (by decide), if_pos rfl, he]
    rfl
  by_cases h5 : pt = "Distribución de Calidad por Familia"
  · subst h5
    have hreq : c = "FAMILIA" ∨ c = "CALIDAD" := by simpa [requiredCols] using hc
    have hor : colIdx? s.header "FAMILIA" = none ∨ colIdx? s.header "CALIDAD" = none := by
      rcases hreq with h | h
      · exact Or.inl (h ▸ hcol)
      · exact Or.inr (h ▸ hcol)
    obtain ⟨e, he⟩ := groupPairs_missing s "FAMILIA" "CALIDAD" hor
    refine ⟨e, build e ?_⟩
    have hq : quality_by_family s = .error e := by
      unfold quality_by_family
      rw [he]
      rfl
    unfold renderChart
    rw [if_neg (by decide), if_neg (by decide), if_neg (by decide), if_neg (by decide),
      if_pos rfl, hq]
    rfl
  by_cases h6 : pt = "Valor Promedio por Origen y Calidad"
  · subst h6
    have hreq : c = "ORIGEN" ∨ c = "CALIDAD" ∨ c = "valor" := by
      simpa [requiredCols] using hc
    have hor : colIdx? s.header "ORIGEN" = none ∨ colIdx? s.header "CALIDAD" = none ∨
        colIdx? s.header "valor" = none := by
      rcases hreq with h | h | h
      · exact Or.inl (h ▸ hcol)
      · exact Or.inr (Or.inl (h ▸ hcol))
      · exact Or.inr (Or.inr (h ▸ hcol))
    obtain ⟨e, he⟩ := avg_value_missing s hor
    refine ⟨e, build e ?_⟩
    unfold renderChart
    rw [if_neg (by decide), if_neg (by decide), if_neg (by decide), if_neg (by decide),
      if_neg (by decide), if_pos rfl, he]
    rfl
  · have hreq : requiredCols pt = [] := by
      unfold requiredCols
      rw [if_neg h1, if_neg h2, if_neg h3, if_neg h4, if_neg h5, if_neg h6]
    rw [hreq] at hc
    cases hc

/-- C5 amended witness: the pipeline-produced joined table of
`noCalidadFile` lacks `CALIDAD`, a column required by the Quality-by-Month
mode, and that mode ends in the uncaught-exception outcome. -/
theorem missing_column_error_propagates_witness :
    "CALIDAD" ∈ requiredCols "Distribución de Calidad por Mes" ∧
    colIdx? noCalidadJoined.header "CALIDAD" = none ∧
    ∃ e, chartSection noCalidadJoined "Distribución de Calidad por Mes"
        = RenderOutcome.uncaught e ∧
      ∀ m, chartSection noCalidadJoined "Distribución de Calidad por Mes"
        ≠ RenderOutcome.errorMessage m :=
  ⟨by decide, rfl, missing_column_error_propagates noCalidadJoined
    "Distribución de Calidad por Mes" "CALIDAD" (by decide) rfl⟩

/-- C2: in every proportion mode (Quality-by-Month, Quality-by-Origin,
Quality-by-Family), every emitted pivot row sums to exactly 1 in the
rational model (hence within the claimed 1e-9 tolerance); a group key with
zero counted rows is never emitted, so no other row exists. -/
theorem proportion_rows_sum_one :
    ∀ (s : Sheet) (out : List (Cell × List ℚ)),
      (quality_by_month s = .ok out ∨ quality_by_origin s = .ok out ∨
        quality_by_family s = .ok out) →
      ∀ p ∈ out, (p.2).sum = 1 := by
  intro s out h p hp
  have key : ∀ pairs : List (Cell × Cell),
      out = divRowSum (pivotTable pairs) → (p.2).sum = 1 := by
    intro pairs he
    subst he
    exact divRowSum_pivot_sum_one pairs p hp
  rcases h with h | h | h
  · unfold quality_by_month at h
    obtain ⟨pairs, hpz, hout⟩ := except_map_ok _ _ _ h
    exact key pairs hout
  · unfold quality_by_origin at h
    obtain ⟨pairs, hpz, hout⟩ := except_map_ok _ _ _ h
    exact key pairs hout
  · unfold quality_by_family at h
    obtain ⟨pairs, hpz, hout⟩ := except_map_ok _ _ _ h
    exact key pairs hout

/-- C2 witness: the example joined table (loaded end-to-end from
`exampleFile`) yields the single month row 2024-01 with proportions
(1/2, 1/2), which sums to 1; the 2024-03 group, whose only row has a null
quality, is absent. -/
theorem proportion_rows_sum_one_witness :
    quality_by_month exampleJoined
      = .ok [(Cell.str "2024-01", [(1 : ℚ)/2, (1 : ℚ)/2])] ∧
    ([(1 : ℚ)/2, (1 : ℚ)/2] : List ℚ).sum = 1 := by
  refine ⟨rfl, ?_⟩
  exact proportion_rows_sum_one exampleJoined
    [(Cell.str "2024-01", [(1 : ℚ)/2, (1 : ℚ)/2])] (Or.inl rfl)
    (Cell.str "2024-01", [(1 : ℚ)/2, (1 : ℚ)/2]) (List.mem_singleton.mpr rfl)

/-- C8: in every proportion mode, a group key appears in the output exactly
when some data row carries that (non-null) key together with a non-null
`CALIDAD` value: empty or all-null groups are excluded rather than emitted
as zero rows, and no output entry is fabricated for a group not present in
the data (nor does the computation raise once the key columns exist). -/
theorem empty_groups_excluded :
    ∀ (s : Sheet) (g : String) (out : List (Cell × List ℚ)),
      ((g = "mes" ∧ quality_by_month s = .ok out) ∨
       (g = "ORIGEN" ∧ quality_by_origin s = .ok out) ∨
       (g = "FAMILIA" ∧ quality_by_family s = .ok out)) →
      ∀ i j, colIdx? s.header g = some i → colIdx? s.header "CALIDAD" = some j →
        ∀ k, (∃ row, (k, row) ∈ out) ↔
          (k ≠ Cell.blank ∧ ∃ r ∈ s.rows, getCellAt r i = k ∧ getCellAt r j ≠ Cell.blank) := by
  intro s g out hmode i j hi hj k
  have main : ∀ pairs : List (Cell × Cell),
      groupPairs s g "CALIDAD" = .ok pairs → out = divRowSum (pivotTable pairs) →
      ((∃ row, (k, row) ∈ out) ↔
        (k ≠ Cell.blank ∧ ∃ r ∈ s.rows, getCellAt r i = k ∧ getCellAt r j ≠ Cell.blank)) := by
    intro pairs hgp hout
    subst hout
    rw [pivot_keys_mem]
    unfold groupPairs at hgp
    rw [hi, hj] at hgp
    replace hgp : Except.ok (s.rows.filterMap (fun r =>
        if getCellAt r i = Cell.blank ∨ getCellAt r j = Cell.blank then none
        else some (getCellAt r i, getCellAt r j))) = Except.ok pairs := hgp
    injection hgp with hgp
    subst hgp
    constructor
    · rintro ⟨c, hc⟩
      obtain ⟨r, hr, hfr⟩ := List.mem_filterMap.mp hc
      by_cases hb : getCellAt r i = Cell.blank ∨ getCellAt r j = Cell.blank
      · rw [if_pos hb] at hfr
        cases hfr
      · rw [if_neg hb] at hfr
        injection hfr with hfr
        rw [not_or] at hb
        have h1 : getCellAt r i = k := congrArg Prod.fst hfr
        exact ⟨h1 ▸ hb.1, r, hr, h1, hb.2⟩
    · rintro ⟨hkb, r, hr, hik, hjb⟩
      refine ⟨getCellAt r j, List.mem_filterMap.mpr ⟨r, hr, ?_⟩⟩
      rw [if_neg (by rw [not_or]; exact ⟨hik.symm ▸ hkb, hjb⟩), hik]
  rcases hmode with ⟨hg, hok⟩ | ⟨hg, hok⟩ | ⟨hg, hok⟩
  · subst hg
    unfold quality_by_month at hok
    obtain ⟨pairs, hgp, hout⟩ := except_map_ok _ _ _ hok
    exact main pairs hgp hout
  · subst hg
    unfold quality_by_origin at hok
    obtain ⟨pairs, hgp, hout⟩ := except_map_ok _ _ _ hok
    exact main pairs hgp hout
  · subst hg
    unfold quality_by_family at hok
    obtain ⟨pairs, hgp, hout⟩ := except_map_ok _ _ _ hok
    exact main pairs hgp hout

/-- C8 witness: in the example joined table, month 2024-03 exists in the
data but only on a row with null `CALIDAD`, so no 2024-03 row is emitted by
Quality-by-Month. -/
theorem empty_groups_excluded_witness :
    quality_by_month exampleJoined
      = .ok [(Cell.str "2024-01", [(1 : ℚ)/2, (1 : ℚ)/2])] ∧
    ¬ ∃ row, (Cell.str "2024-03", row)
      ∈ ([(Cell.str "2024-01", [(1 : ℚ)/2, (1 : ℚ)/2])] : List (Cell × List ℚ)) := by
  refine ⟨rfl, ?_⟩
  intro hex
  have hiff := empty_groups_excluded exampleJoined "mes"
    [(Cell.str "2024-01", [(1 : ℚ)/2, (1 : ℚ)/2])] (Or.inl ⟨rfl, rfl⟩) 8 7 rfl rfl
    (Cell.str "2024-03")
  exact absurd (hiff.mp hex) (by decide)

/-- C6: a joined-table row with null `CALIDAD` (as produced for a code that
matched no family row) is excluded from all three Quality-by-* groupings —
removing it leaves every mode's output unchanged — yet its record is
present in the CSV export of the joined table. -/
theorem null_quality_excluded_included :
    ∀ (s : Sheet) (j : Nat) (l1 l2 : List (List Cell)) (r : List Cell),
      colIdx? s.header "CALIDAD" = some j → s.rows = l1 ++ r :: l2 →
      getCellAt r j = Cell.blank →
      quality_by_month ⟨s.header, l1 ++ l2⟩ = quality_by_month s ∧
      quality_by_origin ⟨s.header, l1 ++ l2⟩ = quality_by_origin s ∧
      quality_by_family ⟨s.header, l1 ++ l2⟩ = quality_by_family s ∧
      r.map cellCsv ∈ to_csv s := by
  intro s j l1 l2 r hj hrows hblank
  have hgp : ∀ c1, groupPairs ⟨s.header, l1 ++ l2⟩ c1 "CALIDAD" = groupPairs s c1 "CALIDAD" := by
    intro c1
    cases hc : colIdx? s.header c1 with
    | none =>
      have h1 : groupPairs ⟨s.header, l1 ++ l2⟩ c1 "CALIDAD"
          = .error ("KeyError: " ++ c1) := by
        unfold groupPairs
        dsimp only
        rw [hc, hj]
      have h2 : groupPairs s c1 "CALIDAD" = .error ("KeyError: " ++ c1) := by
        unfold groupPairs
        rw [hc, hj]
      rw [h1, h2]
    | some i =>
      have key : ∀ rows : List (List Cell), groupPairs ⟨s.header, rows⟩ c1 "CALIDAD"
          = .ok (rows.filterMap (fun r2 =>
            if getCellAt r2 i = Cell.blank ∨ getCellAt r2 j = Cell.blank then none
            else some (getCellAt r2 i, getCellAt r2 j))) := by
        intro rows
        unfold groupPairs
        dsimp only
        rw [hc, hj]
      have h2 : groupPairs s c1 "CALIDAD" = .ok (s.rows.filterMap (fun r2 =>
          if getCellAt r2 i = Cell.blank ∨ getCellAt r2 j = Cell.blank then none
          else some (getCellAt r2 i, getCellAt r2 j))) := by
        unfold groupPairs
        rw [hc, hj]
      have hfr : (fun r2 => if getCellAt r2 i = Cell.blank ∨ getCellAt r2 j = Cell.blank
          then none else some (getCellAt r2 i, getCellAt r2 j)) r = none := by
        dsimp only
        rw [if_pos (Or.inr hblank)]
      rw [key (l1 ++ l2), h2, hrows, List.filterMap_append, List.filterMap_append,
        filterMap_cons_of_none (fun r2 =>
          if getCellAt r2 i = Cell.blank ∨ getCellAt r2 j = Cell.blank then none
          else some (getCellAt r2 i, getCellAt r2 j)) r l2 hfr]
  refine ⟨?_, ?_, ?_, ?_⟩
  · unfold quality_by_month
    rw [hgp "mes"]
  · unfold quality_by_origin
    rw [hgp "ORIGEN"]
  · unfold quality_by_family
    rw [hgp "FAMILIA"]
  · unfold to_csv
    refine List.mem_cons_of_mem _ ?_
    refine List.mem_map.mpr ⟨r, ?_, rfl⟩
    rw [hrows]
    exact List.mem_append.mpr (Or.inr (List.mem_cons_self _ _))

/-- Joined rows of the running example, written out (values checked against
the pipeline by the witness below). -/
def row1J : List Cell :=
  [Cell.str "A1", Cell.date ⟨2024, 1, 1⟩, Cell.date ⟨2024, 1, 2⟩, Cell.num 100,
   Cell.str "A1", Cell.str "F1", Cell.str "ES", Cell.str "Alta",
   Cell.str "2024-01", Cell.num 2024]

/-- Second joined row of the running example. -/
def row2J : List Cell :=
  [Cell.str "A2", Cell.date ⟨2024, 1, 1⟩, Cell.date ⟨2024, 1, 2⟩, Cell.num 200,
   Cell.str "A2", Cell.str "F1", Cell.str "ES", Cell.str "Baja",
   Cell.str "2024-01", Cell.num 2024]

/-- The unmatched-code joined row of the running example: code Z9 matched
no family row, so its family columns are all blank. -/
def z9Row : List Cell :=
  [Cell.str "Z9", Cell.date ⟨2024, 3, 5⟩, Cell.date ⟨2024, 3, 6⟩, Cell.num 50,
   Cell.blank, Cell.blank, Cell.blank, Cell.blank,
   Cell.str "2024-03", Cell.num 2024]

/-- C6 witness: dropping the unmatched Z9 row (null `CALIDAD`) from the
example joined table changes none of the three proportion outputs, while
the CSV export contains its record. -/
theorem null_quality_excluded_included_witness :
    colIdx? exampleJoined.header "CALIDAD" = some 7 ∧
    exampleJoined.rows = [row1J, row2J] ++ z9Row :: [] ∧
    getCellAt z9Row 7 = Cell.blank ∧
    (quality_by_month ⟨exampleJoined.header, [row1J, row2J] ++ []⟩
        = quality_by_month exampleJoined ∧
      quality_by_origin ⟨exampleJoined.header, [row1J, row2J] ++ []⟩
        = quality_by_origin exampleJoined ∧
      quality_by_family ⟨exampleJoined.header, [row1J, row2J] ++ []⟩
        = quality_by_family exampleJoined ∧
      z9Row.map cellCsv ∈ to_csv exampleJoined) :=
  ⟨rfl, rfl, rfl,
    null_quality_excluded_included exampleJoined 7 [row1J, row2J] [] z9Row rfl rfl rfl⟩

/-- C7: Value-by-Month groups the joined rows by month and computes both the
mean and the sum of `valor` per month as a dual-series output — each output
triple carries the group's sum and its mean (sum divided by count, so
mean·count = sum); on the example data, month 2024-01 yields mean 150 and
sum 300. -/
theorem value_by_month_mean_sum :
    (∀ (s : Sheet) (i j : Nat) (out : List (Cell × ℚ × ℚ)),
      colIdx? s.header "mes" = some i → colIdx? s.header "valor" = some j →
      value_by_month s = .ok out →
      ∀ p ∈ out,
        p.2.2 = (valsOf s i j p.1).sum ∧
        p.2.1 = (valsOf s i j p.1).sum / ((valsOf s i j p.1).length : ℚ) ∧
        ((valsOf s i j p.1).length ≠ 0 →
          p.2.1 * ((valsOf s i j p.1).length : ℚ) = p.2.2)) ∧
    value_by_month exampleJoined
      = .ok [(Cell.str "2024-01", 150, 300), (Cell.str "2024-03", 50, 50)] := by
  constructor
  · intro s i j out hi hj hout p hp
    unfold value_by_month at hout
    rw [hi, hj] at hout
    replace hout : Except.ok (((s.rows.filterMap (fun r =>
        if getCellAt r i = Cell.blank then none else some (getCellAt r i))).dedup).map
          (fun k => (k, (valsOf s i j k).sum / ((valsOf s i j k).length : ℚ),
            (valsOf s i j k).sum))) = Except.ok out := hout
    injection hout with hout
    subst hout
    obtain ⟨k, hk, hkp⟩ := List.mem_map.mp hp
    subst hkp
    refine ⟨rfl, rfl, ?_⟩
    intro hlen
    exact div_mul_cancel₀ _ (Nat.cast_ne_zero.mpr hlen)
  · have hkeys : ((exampleJoined.rows.filterMap (fun r =>
        if getCellAt r 8 = Cell.blank then none else some (getCellAt r 8))).dedup)
        = [Cell.str "2024-01", Cell.str "2024-03"] := by decide
    have hv1 : valsOf exampleJoined 8 3 (Cell.str "2024-01") = [100, 200] := by decide
    have hv2 : valsOf exampleJoined 8 3 (Cell.str "2024-03") = [50] := by decide
    have h1 : value_by_month exampleJoined = Except.ok
        (((exampleJoined.rows.filterMap (fun r =>
          if getCellAt r 8 = Cell.blank then none else some (getCellAt r 8))).dedup).map
            (fun k => (k, (valsOf exampleJoined 8 3 k).sum /
              ((valsOf exampleJoined 8 3 k).length : ℚ), (valsOf exampleJoined 8 3 k).sum))) := by
      unfold value_by_month
      rw [show colIdx? exampleJoined.header "mes" = some 8 from rfl,
        show colIdx? exampleJoined.header "valor" = some 3 from rfl]
    rw [h1, hkeys]
    simp only [List.map_cons, List.map_nil, hv1, hv2, List.sum_cons, List.sum_nil,
      List.length_cons, List.length_nil]
    norm_num

/-- C7 witness: instantiating the mean/sum property at the example's
2024-01 output row: the sum series carries 300 (= 100 + 200) and the mean
series 150 (sum divided by the two counted rows). -/
theorem value_by_month_mean_sum_witness :
    colIdx? exampleJoined.header "mes" = some 8 ∧
    colIdx? exampleJoined.header "valor" = some 3 ∧
    (300 : ℚ) = (valsOf exampleJoined 8 3 (Cell.str "2024-01")).sum ∧
    (150 : ℚ) * ((valsOf exampleJoined 8 3 (Cell.str "2024-01")).length : ℚ) = 300 := by
  have h := value_by_month_mean_sum.1 exampleJoined 8 3
    [(Cell.str "2024-01", 150, 300), (Cell.str "2024-03", 50, 50)] rfl rfl
    value_by_month_mean_sum.2 (Cell.str "2024-01", 150, 300) (List.mem_cons_self _ _)
  exact ⟨rfl, rfl, h.1, h.2.2 (by decide)⟩

/-- Left-outer-join specification of the merge of line 37, for entry key
column `i` and family key column `j`: the merge succeeds; its header is the
concatenation of both headers; every entry row appears; the entry-part
multiset of the join is exactly the entry rows, each with multiplicity
`max 1 (number of matching family rows)` (so rows appear exactly once when
the code matches at most one `CODIGO`, and duplicated keys fan out, one
joined row per match); unmatched rows carry blank family columns; and every
(entry row, matching family row) pair contributes its own joined row. -/
def LeftJoinSpec (e f : Sheet) (i j : Nat) : Prop :=
  ∃ m, mergeLeftOn e f = .ok m ∧
    m.header = e.header ++ f.header ∧
    (∀ er ∈ e.rows, ∃ mr ∈ m.rows, mr.take e.header.length = er) ∧
    (∀ er2, cnt er2 (m.rows.map (fun mr => mr.take e.header.length)) =
      cnt er2 e.rows * max 1 (matchesFor f.rows j (getCellAt er2 i)).length) ∧
    (∀ mr ∈ m.rows, (matchesFor f.rows j (getCellAt mr i)).length = 0 →
      mr.drop e.header.length = f.header.map (fun _ => Cell.blank)) ∧
    (∀ er ∈ e.rows, ∀ fr ∈ f.rows, getCellAt fr j = getCellAt er i →
      er ++ fr ∈ m.rows)

/-- C1: for every pair of (rectangular) tables with the key columns present,
the merge of line 37 is a left outer join of the entry table to the family
table on `codigo` = `CODIGO`, in the sense of `LeftJoinSpec`. -/
theorem mergeLeftOn_left_outer_join :
    ∀ (e f : Sheet) (i j : Nat),
      colIdx? e.header "codigo" = some i → colIdx? f.header "CODIGO" = some j →
      (∀ r ∈ e.rows, r.length = e.header.length) →
      LeftJoinSpec e f i j := by
  intro e f i j hi hj hrect
  have hilt : i < e.header.length := colIdx?_lt_length _ _ _ hi
  refine ⟨⟨e.header ++ f.header, concatMap (joinRows f.header f.rows j i) e.rows⟩, ?_,
    rfl, ?_, ?_, ?_, ?_⟩
  · unfold mergeLeftOn
    rw [hi, hj]
  · intro er her
    have hn := hrect er her
    cases hms : matchesFor f.rows j (getCellAt er i) with
    | nil =>
      refine ⟨er ++ f.header.map (fun _ => Cell.blank), ?_, ?_⟩
      · refine (mem_concatMap _ _ _).mpr ⟨er, her, ?_⟩
        unfold joinRows
        rw [hms]
        exact List.mem_singleton.mpr rfl
      · rw [← hn]
        exact take_len_append _ _
    | cons m0 ms =>
      refine ⟨er ++ m0, ?_, ?_⟩
      · refine (mem_concatMap _ _ _).mpr ⟨er, her, ?_⟩
        unfold joinRows
        rw [hms]
        exact List.mem_map.mpr ⟨m0, List.mem_cons_self _ _, rfl⟩
      · rw [← hn]
        exact take_len_append _ _
  · intro er2
    exact mergeRows_cnt f.header f.rows j i e.rows e.header.length hrect er2
  · intro mr hmr hzero
    obtain ⟨er, her, hjr⟩ := (mem_concatMap _ _ _).mp hmr
    have hn := hrect er her
    unfold joinRows at hjr
    cases hms : matchesFor f.rows j (getCellAt er i) with
    | nil =>
      rw [hms] at hjr
      have hmr2 : mr = er ++ f.header.map (fun _ => Cell.blank) := List.mem_singleton.mp hjr
      rw [hmr2, ← hn]
      exact drop_len_append _ _
    | cons m0 ms =>
      rw [hms] at hjr
      obtain ⟨fr, hfr, hfre⟩ := List.mem_map.mp hjr
      have hcell : getCellAt mr i = getCellAt er i := by
        rw [← hfre]
        exact getCellAt_append_lt er fr i (hn ▸ hilt)
      rw [hcell, hms] at hzero
      cases hzero
  · intro er her fr hfr hmatch
    have hmem : fr ∈ matchesFor f.rows j (getCellAt er i) :=
      List.mem_filter.mpr ⟨hfr, by simpa using hmatch⟩
    refine (mem_concatMap _ _ _).mpr ⟨er, her, ?_⟩
    unfold joinRows
    cases hms : matchesFor f.rows j (getCellAt er i) with
    | nil =>
      rw [hms] at hmem
      cases hmem
    | cons m0 ms =>
      rw [hms] at hmem
      exact List.mem_map.mpr ⟨fr, hmem, rfl⟩

/-- Entry table with an unmatched code (Z9) used to instantiate the join
specification. -/
def entradasDup : Sheet :=
  ⟨["codigo", "valor"], [[Cell.str "A1", Cell.num 1], [Cell.str "Z9", Cell.num 2]]⟩

/-- Family table with a duplicated `CODIGO` key (A1 twice), exercising the
fan-out behaviour of the join. -/
def familiasDup : Sheet :=
  ⟨["CODIGO", "CALIDAD"], [[Cell.str "A1", Cell.str "Alta"], [Cell.str "A1", Cell.str "Baja"]]⟩

/-- C1 witness: the join specification holds for concrete tables containing
both an unmatched entry code and a duplicated family key. -/
theorem mergeLeftOn_left_outer_join_witness :
    (∀ r ∈ entradasDup.rows, r.length = entradasDup.header.length) ∧
    LeftJoinSpec entradasDup familiasDup 0 0 :=
  ⟨by decide, mergeLeftOn_left_outer_join entradasDup familiasDup 0 0 rfl rfl (by decide)⟩

/-- C3: dates are parsed strictly as `%d/%m/%y` with `strptime` field
semantics: `"05/03/24"` parses to 2024-03-05 (two-digit years expand to
19xx/20xx, no other format is attempted) and `"2024-03-05"` does not
parse; the field patterns are exact — `%y` takes exactly two digits
(`"05/03/4"` fails) while `%d` also accepts a space-padded day
(`" 5/03/24"` parses) — and any Entradas sheet in which some row of either
date column holds a string that does not match the format makes the whole
load fail to the no-data triple. -/
theorem date_parse_strict :
    parseDDMMYY "05/03/24" = some ⟨2024, 3, 5⟩ ∧
    parseDDMMYY "2024-03-05" = none ∧
    parseDDMMYY "05/03/4" = none ∧
    parseDDMMYY " 5/03/24" = some ⟨2024, 3, 5⟩ ∧
    (∀ (f : ExcelFile) (ent : Sheet) (c : String) (i : Nat),
      findSheet f "Entradas" = .ok ent →
      (c = "fecha_entrada_caja" ∨ c = "fecha_preparación_caja") →
      colIdx? ent.header c = some i →
      (∃ row ∈ ent.rows, ∃ t, getCellAt row i = Cell.str t ∧ parseDDMMYY t = none) →
      load_excel f = (none, none, none)) := by
  refine ⟨rfl, rfl, rfl, rfl, ?_⟩
  intro f ent c i hent hc hi hex
  obtain ⟨row, hrow, t, hcell, hbad⟩ := hex
  suffices h : ∃ e, loadExcelE f = .error e by
    obtain ⟨e, he⟩ := h
    unfold load_excel
    rw [he]
  cases hfam : findSheet f "Familias" with
  | error e =>
    refine ⟨e, ?_⟩
    unfold loadExcelE
    rw [hent, hfam]
  | ok fam =>
    rw [loadExcelE_eq f ent fam hent hfam]
    rcases hc with hc | hc
    · subst hc
      obtain ⟨e, he⟩ := convertDateCol_error_of_bad ent _ i row t hi hrow hcell hbad
      rw [he]
      exact ⟨e, rfl⟩
    · subst hc
      cases h1 : convertDateCol ent "fecha_entrada_caja" with
      | error e => exact ⟨e, rfl⟩
      | ok ent1 =>
        show ∃ e2, (match convertDateCol ent1 "fecha_preparación_caja" with
          | Except.error e => (Except.error e : Except String (Sheet × Sheet × Sheet))
          | Except.ok entradas =>
            match mergeLeftOn entradas fam with
            | Except.error e => Except.error e
            | Except.ok merged => Except.ok (entradas, fam, merged)) = Except.error e2
        obtain ⟨hhdr, i1, hi1, hrows⟩ := convertDateCol_ok_struct ent _ ent1 h1
        have hne : i1 ≠ i :=
          colIdx?_ne ent.header "fecha_entrada_caja" "fecha_preparación_caja" i1 i
            (by decide) hi1 hi
        obtain ⟨cl, row2, hrow2, heq⟩ := hrows row hrow
        have hcell2 : getCellAt row2 i = Cell.str t := by
          rw [heq, getCellAt_set_ne row i1 i cl hne, hcell]
        have hi2 : colIdx? ent1.header "fecha_preparación_caja" = some i := by
          rw [hhdr]
          exact hi
        obtain ⟨e, he⟩ := convertDateCol_error_of_bad ent1 _ i row2 t hi2 hrow2 hcell2 hbad
        rw [he]
        exact ⟨e, rfl⟩

/-- A workbook whose Entradas sheet holds an ISO-formatted date string. -/
def badDateFile : ExcelFile :=
  [("Entradas", ⟨["codigo", "fecha_entrada_caja", "fecha_preparación_caja", "valor"],
     [[Cell.str "A1", Cell.str "2024-03-05", Cell.str "01/01/24", Cell.num 100]]⟩),
   ("Familias", familiasSheetW)]

/-- C3 witness: the workbook with the ISO date `"2024-03-05"` in
`fecha_entrada_caja` fails to load entirely. -/
theorem date_parse_strict_witness :
    colIdx? ["codigo", "fecha_entrada_caja", "fecha_preparación_caja", "valor"]
      "fecha_entrada_caja" = some 1 ∧
    parseDDMMYY "2024-03-05" = none ∧
    load_excel badDateFile = (none, none, none) := by
  refine ⟨rfl, rfl, ?_⟩
  exact date_parse_strict.2.2.2.2 badDateFile
    ⟨["codigo", "fecha_entrada_caja", "fecha_preparación_caja", "valor"],
     [[Cell.str "A1", Cell.str "2024-03-05", Cell.str "01/01/24", Cell.num 100]]⟩
    "fecha_entrada_caja" 1 rfl (Or.inl rfl) rfl
    ⟨[Cell.str "A1", Cell.str "2024-03-05", Cell.str "01/01/24", Cell.num 100],
      List.mem_singleton.mpr rfl, "2024-03-05", rfl, rfl⟩

end ExcelApp
